import Mathlib

/-!
Verification development for the message-classification Temporal worker
(`src/llm-config.ts`, `src/workflows.ts`, `src/activities.ts`, `src/types.ts`).

The repository is TypeScript glue over two external engines: the Temporal
durable-execution runtime and the `ai` generative-AI client library.  The
shallow embedding below translates the repository code into Lean:

* process environment variables become an explicit `Env` record of
  `Option String` fields (JS truthiness of `process.env.X` is `truthy`,
  the `x || d` defaulting idiom is `envOr`);
* the provider registry, `getModel`, `getAvailableProviders` and
  `validateConfiguration` are translated from `llm-config.ts`;
* the `classifyMessage` activity is translated from `activities.ts`; the
  two outbound generation calls (`generateText` / `generateObject`) and
  the JSON parser (`JSON.parse`, an external library) are modelled as
  oracle parameters, while the zod `classificationSchema` checks are
  translated concretely (`schemaParse`); the activity result also carries
  instrumentation counters for how many generation calls were issued and
  whether the model handle was resolved;
* the workflows are translated from `workflows.ts`; `Promise.all` is
  modelled with an explicit completion-order schedule so that ordering
  claims are settled for every completion order;
* the Temporal retry executor is not repository code; it is modelled from
  the spec and instantiated with the retry options declared in
  `workflows.ts`.

Error `cause` chains (the optional `originalError` constructor argument)
carry no information used by any claim and are omitted from the error
types.
-/

/-- JSON values, as produced by `JSON.parse`.  Numbers are modelled as
rationals (JS numbers are only compared against the literal bounds 0 and 1
by the schema). -/
inductive Jsonv where
  | null : Jsonv
  | bool (b : Bool) : Jsonv
  | num (q : ℚ) : Jsonv
  | str (s : String) : Jsonv
  | arr (xs : List Jsonv) : Jsonv
  | obj (fields : List (String × Jsonv)) : Jsonv

/-- From `types.ts`: `MessageClassificationRequest`.  The untyped
`metadata: Record<string, any>` field is modelled with string values; no
claim inspects it. -/
structure MessageClassificationRequest where
  message : String
  userId : Option String := none
  metadata : Option (List (String × String)) := none
deriving DecidableEq

/-- From `types.ts`: `MessageClassificationResult`.  `timestamp: Date` is
modelled as a natural number supplied to the activity as `now`. -/
structure MessageClassificationResult where
  message : String
  isOffensive : Bool
  confidence : Option ℚ
  reasoning : Option String
  provider : String
  model : String
  timestamp : Nat
deriving DecidableEq

/-- From `types.ts`: `LLMProviderError` (without the `originalError`
cause, see the file header). -/
structure LLMProviderError where
  message : String
  provider : String
deriving DecidableEq

/-- The two domain error types an activity invocation can surface:
`ClassificationError(message, request)` and `LLMProviderError`. -/
inductive ActError where
  | classification (message : String) (request : MessageClassificationRequest) : ActError
  | provider (e : LLMProviderError) : ActError
deriving DecidableEq

/-- The process environment variables read by `llm-config.ts` and
`activities.ts`.  `none` is an unset variable. -/
structure Env where
  OPENAI_API_KEY : Option String := none
  OPENAI_BASE_URL : Option String := none
  LMSTUDIO_BASE_URL : Option String := none
  LMSTUDIO_API_KEY : Option String := none
  LLM_PROVIDER : Option String := none
  DEFAULT_MODEL : Option String := none
deriving DecidableEq

/-- JS truthiness of `process.env.X`: set and non-empty. -/
def truthy : Option String → Bool
  | none => false
  | some s => !s.isEmpty

/-- The JS defaulting idiom `process.env.X || d`. -/
def envOr : Option String → String → String
  | none, d => d
  | some s, d => if s.isEmpty then d else s

/-- From `llm-config.ts` `createRegistry`: the provider keys registered in
the provider registry (`openai` when `OPENAI_API_KEY` is truthy,
`lmstudio` when `LMSTUDIO_BASE_URL` is truthy).  When this list is empty
the registry constructor throws and the process never serves requests. -/
def registryProviders (env : Env) : List String :=
  (if truthy env.OPENAI_API_KEY then ["openai"] else []) ++
    (if truthy env.LMSTUDIO_BASE_URL then ["lmstudio"] else [])

/-- From `llm-config.ts` `getAvailableProviders` (called with no config
override, as the activity does). -/
def getAvailableProviders (env : Env) : List String :=
  (if truthy env.OPENAI_API_KEY then ["openai"] else []) ++
    (if truthy env.LMSTUDIO_BASE_URL then ["lmstudio"] else [])

/-- From `llm-config.ts` `getModel()` (no config override): the model id
is `provider:model`; the registry resolves the part before the first
colon as the provider key and throws (here: `.error`) when that key is
not registered.  Since a colon always follows the provider segment, the
resolved key is the part of `provider` before its first colon. -/
def getModel (env : Env) : Except LLMProviderError String :=
  let provider := envOr env.LLM_PROVIDER "openai"
  let modelName := envOr env.DEFAULT_MODEL "gpt-4o-mini"
  let providerKey := String.mk (provider.data.takeWhile (fun c => c ≠ ':'))
  if (registryProviders env).contains providerKey then
    .ok (provider ++ ":" ++ modelName)
  else
    .error { message := "Failed to get model " ++ modelName ++ " from provider " ++ provider,
             provider := provider }

/-- Return shape of `validateConfiguration`. -/
structure ValidationResult where
  isValid : Bool
  errors : List String
deriving DecidableEq

/-- From `llm-config.ts` `validateConfiguration`: the four imperative
`errors.push` sites, in program order, as list concatenation. -/
def configErrors (env : Env) : List String :=
  (if (getAvailableProviders env).isEmpty then ["No LLM providers are configured"] else []) ++
    (match env.LLM_PROVIDER with
     | none => []
     | some s =>
       if s.isEmpty then []
       else if (getAvailableProviders env).contains s then []
       else ["Selected provider \x27" ++ s ++ "\x27 is not available. Available providers: " ++
              String.intercalate ", " (getAvailableProviders env)]) ++
    (if env.LLM_PROVIDER = some "openai" && !truthy env.OPENAI_API_KEY then
       ["OpenAI provider selected but OPENAI_API_KEY is not set"] else []) ++
    (if env.LLM_PROVIDER = some "lmstudio" && !truthy env.LMSTUDIO_BASE_URL then
       ["LM Studio provider selected but LMSTUDIO_BASE_URL is not set"] else [])

/-- From `llm-config.ts` `validateConfiguration`. -/
def validateConfiguration (env : Env) : ValidationResult :=
  { isValid := (configErrors env).isEmpty, errors := configErrors env }

/-- The zod-validated shape of `classificationSchema` from
`llm-config.ts` (required `isOffensive`, required `confidence` in
`[0, 1]`, required `reasoning`, optional `categories`). -/
structure ClassificationData where
  isOffensive : Bool
  confidence : ℚ
  reasoning : String
  categories : Option (List String) := none

/-- Field lookup on a parsed JSON object. -/
def jGet (fields : List (String × Jsonv)) (name : String) : Option Jsonv :=
  (fields.find? (fun f => f.1 = name)).map (·.2)

/-- Coerce a parsed JSON array to a string list, as
`z.array(z.string())` requires. -/
def asStringList : List Jsonv → Option (List String)
  | [] => some []
  | .str s :: rest => (asStringList rest).map (s :: ·)
  | _ => none

/-- From `llm-config.ts` `classificationSchema` applied with `.parse`:
checks the value is an object with a boolean `isOffensive`, a numeric
`confidence` within `min(0)`/`max(1)`, a string `reasoning` and an
optional string-array `categories`.  The error strings summarise the zod
issue; only their presence is used by the claims. -/
def schemaParse : Jsonv → Except String ClassificationData
  | .obj fields =>
    match jGet fields "isOffensive" with
    | some (.bool b) =>
      match jGet fields "confidence" with
      | some (.num q) =>
        if q < 0 then .error "too_small: confidence must be greater than or equal to 0"
        else if 1 < q then .error "too_big: confidence must be less than or equal to 1"
        else
          match jGet fields "reasoning" with
          | some (.str r) =>
            match jGet fields "categories" with
            | none => .ok { isOffensive := b, confidence := q, reasoning := r, categories := none }
            | some (.arr xs) =>
              match asStringList xs with
              | some cats =>
                .ok { isOffensive := b, confidence := q, reasoning := r, categories := some cats }
              | none => .error "invalid_type: categories must contain strings"
            | some _ => .error "invalid_type: categories must be an array"
          | _ => .error "invalid_type: reasoning must be a string"
      | _ => .error "invalid_type: confidence must be a number"
    | _ => .error "invalid_type: isOffensive must be a boolean"
  | _ => .error "invalid_type: expected object"

/-- The opening brace character. -/
def lbrace : Char := Char.ofNat 123

/-- The closing brace character. -/
def rbrace : Char := Char.ofNat 125

/-- The prefix of `l` up to and including its last closing brace
(callers establish that `l` contains one). -/
def takeToLastClose (l : List Char) : List Char :=
  (l.reverse.dropWhile (fun c => c ≠ rbrace)).reverse

/-- From `activities.ts` line 143: the JS greedy regex match
`result.text.match` of one open brace, any characters, one close brace.
The leftmost match starts at the first opening brace that has a closing
brace after it, and greediness extends it to the last closing brace of
the whole string.  If the first opening brace has no closing brace after
it, no later position can match either. -/
def jsonMatch : List Char → Option (List Char)
  | [] => none
  | c :: rest =>
    if c = lbrace then
      if rest.contains rbrace then some (c :: takeToLastClose rest) else none
    else jsonMatch rest

/-- JS `String.prototype.trim` (an ECMAScript builtin, not repository
code): strip leading and trailing whitespace. -/
def jsTrim (s : String) : String :=
  String.mk (((s.data.dropWhile Char.isWhitespace).reverse.dropWhile Char.isWhitespace).reverse)

/-- Does `pat` occur as a contiguous run inside the second list? -/
def hasInfix (pat : List Char) : List Char → Bool
  | [] => pat.isEmpty
  | c :: rest => List.isPrefixOf pat (c :: rest) || hasInfix pat rest

/-- JS `String.prototype.includes` (an ECMAScript builtin). -/
def strIncludes (s pat : String) : Bool :=
  hasInfix pat.data s.data

/-- The external model calls and the external JSON parser, modelled as
oracles for one activity invocation: `textResp` is what `generateText`
returns (`.error` when the call throws, `.ok` with the response text
otherwise); `parseJson` is `JSON.parse` (`.error` with the exception
message on malformed input); `objectResp` is the raw object produced on
the `generateObject` path before the SDK validates it against the
schema. -/
structure Oracles where
  textResp : Except String String
  parseJson : String → Except String Jsonv
  objectResp : Except String Jsonv

/-- From `activities.ts` lines 191-214: the final catch-all.  Domain
errors pass through unchanged (handled by the callers of this helper);
any other error is wrapped into a `ClassificationError`, with a special
message when the error message mentions the schema. -/
def wrapGeneric (m : String) (request : MessageClassificationRequest) : ActError :=
  if strIncludes m "schema" then
    .classification
      ("LLM response validation failed: " ++ m ++
        ". This indicates the model couldn\x27t generate properly structured output.") request
  else
    .classification ("Failed to classify message: " ++ m) request

/-- From `activities.ts` line 153: the message of the
`ClassificationError` raised when the LM Studio response cannot be
turned into validated classification data. -/
def parseFailMsg (failure : String) (text : String) : String :=
  "Failed to parse LM Studio response: " ++ failure ++ ". Response was: " ++ text

/-- From `activities.ts` lines 131-157, the LM Studio branch: call
`generateText`, locate a JSON substring with the greedy regex, parse it
with `JSON.parse`, validate it with the zod schema; each failure
produces the `ClassificationError` built at line 152, and a failing
`generateText` call falls through to the generic wrapper. -/
def lmstudioPath (o : Oracles) (request : MessageClassificationRequest) :
    Except ActError ClassificationData :=
  match o.textResp with
  | .error m => .error (wrapGeneric m request)
  | .ok text =>
    match jsonMatch text.data with
    | none => .error (.classification (parseFailMsg "No JSON found in response" text) request)
    | some ms =>
      match o.parseJson (String.mk ms) with
      | .error pe => .error (.classification (parseFailMsg pe text) request)
      | .ok v =>
        match schemaParse v with
        | .error ze => .error (.classification (parseFailMsg ze text) request)
        | .ok data => .ok data

/-- From `activities.ts` lines 158-170, the structured-output branch:
`generateObject` returns an object already validated against the schema
(the SDK throws a schema-mentioning error when the model output does not
validate); any thrown error reaches the generic catch-all wrapper. -/
def openaiPath (o : Oracles) (request : MessageClassificationRequest) :
    Except ActError ClassificationData :=
  match o.objectResp with
  | .error m => .error (wrapGeneric m request)
  | .ok v =>
    match schemaParse v with
    | .error ze => .error (wrapGeneric ("response did not match schema: " ++ ze) request)
    | .ok data => .ok data

/-- From `activities.ts` lines 172-180: the result literal, stamped with
the environment-derived provider and model names and the current time;
`message` is the original request message. -/
def buildResult (request : MessageClassificationRequest) (data : ClassificationData)
    (provider modelName : String) (now : Nat) : MessageClassificationResult :=
  { message := request.message
    isOffensive := data.isOffensive
    confidence := some data.confidence
    reasoning := some data.reasoning
    provider := provider
    model := modelName
    timestamp := now }

/-- One activity invocation outcome, instrumented: the returned or thrown
value, plus how many times the model handle was resolved and how many
`generateText` / `generateObject` calls were issued. -/
structure ClassifyOutcome where
  result : Except ActError MessageClassificationResult
  getModelCalls : Nat
  textCalls : Nat
  objectCalls : Nat

/-- From `activities.ts` `classifyMessage`: validate the message (empty
or whitespace-only is rejected before any other work), resolve the model
handle, branch on `provider === \x27lmstudio\x27`, and normalize the
validated data into the result literal. -/
def classifyMessage (env : Env) (o : Oracles) (now : Nat)
    (request : MessageClassificationRequest) : ClassifyOutcome :=
  if request.message == "" || (jsTrim request.message).length == 0 then
    { result := .error (.classification "Message cannot be empty" request)
      getModelCalls := 0, textCalls := 0, objectCalls := 0 }
  else
    match getModel env with
    | .error e =>
      { result := .error (.provider e), getModelCalls := 1, textCalls := 0, objectCalls := 0 }
    | .ok _ =>
      let provider := envOr env.LLM_PROVIDER "openai"
      let modelName := envOr env.DEFAULT_MODEL "gpt-4o-mini"
      if provider == "lmstudio" then
        match lmstudioPath o request with
        | .error e =>
          { result := .error e, getModelCalls := 1, textCalls := 1, objectCalls := 0 }
        | .ok data =>
          { result := .ok (buildResult request data provider modelName now)
            getModelCalls := 1, textCalls := 1, objectCalls := 0 }
      else
        match openaiPath o request with
        | .error e =>
          { result := .error e, getModelCalls := 1, textCalls := 0, objectCalls := 1 }
        | .ok data =>
          { result := .ok (buildResult request data provider modelName now)
            getModelCalls := 1, textCalls := 0, objectCalls := 1 }

/-- From `workflows.ts` lines 6-14: the retry options passed to
`proxyActivities`.  Durations are in milliseconds. -/
structure RetryPolicyCfg where
  initialInterval : Nat
  maximumInterval : Nat
  maximumAttempts : Nat
  backoffCoefficient : Nat
deriving DecidableEq

/-- From `workflows.ts` lines 6-14: the activity proxy options
(`startToCloseTimeout` 2 minutes, retry with initial interval 1 s,
maximum interval 30 s, maximum 3 attempts, backoff coefficient 2). -/
structure ProxyActivityOptions where
  startToCloseTimeout : Nat
  retry : RetryPolicyCfg
deriving DecidableEq

/-- The concrete options declared in `workflows.ts`. -/
def activityProxyOptions : ProxyActivityOptions :=
  { startToCloseTimeout := 120000
    retry := { initialInterval := 1000, maximumInterval := 30000,
               maximumAttempts := 3, backoffCoefficient := 2 } }

/-- Modelled from the spec: the interval the durable-execution engine
waits after failed attempt `k` (1-based) — exponential backoff from the
initial interval by the backoff coefficient, capped at the maximum
interval. -/
def backoffInterval (p : RetryPolicyCfg) (k : Nat) : Nat :=
  min p.maximumInterval (p.initialInterval * p.backoffCoefficient ^ (k - 1))

/-- Modelled from the spec: the retry loop of the external
durable-execution engine (the engine itself is not repository code).
`run k` is the outcome of attempt number `k`; `fuel` is the number of
retries still allowed after the current attempt.  Returns the final
outcome, the number of the last attempt performed, and the list of
backoff intervals waited between attempts. -/
def retryExec (p : RetryPolicyCfg) (run : Nat → Except E A) (k fuel : Nat) :
    Except E A × Nat × List Nat :=
  match run k with
  | .ok a => (.ok a, k, [])
  | .error e =>
    match fuel with
    | 0 => (.error e, k, [])
    | f + 1 =>
      let rest := retryExec p run (k + 1) f
      (rest.1, rest.2.1, backoffInterval p k :: rest.2.2)

/-- Modelled from the spec: one durable activity invocation under retry
policy `p`: attempt 1 first, with at most `p.maximumAttempts` attempts
in total. -/
def durableExecute (p : RetryPolicyCfg) (run : Nat → Except E A) :
    Except E A × Nat × List Nat :=
  retryExec p run 1 (p.maximumAttempts - 1)

/-- The durable invocation of the `classifyMessage` activity as the
workflows see it: each attempt `k` reruns the activity (possibly against
different model responses, `oracleAt k`) under the retry options of
`workflows.ts`. -/
def durableClassify (env : Env) (oracleAt : Nat → Oracles) (now : Nat)
    (request : MessageClassificationRequest) : Except ActError MessageClassificationResult :=
  (durableExecute activityProxyOptions.retry
    (fun k => (classifyMessage env (oracleAt k) now request).result)).1

/-- Workflow-level failures: the synchronous input-validation `Error`
throws, or a failure propagated from the durable activity call. -/
inductive WorkflowError where
  | invalidInput (message : String) : WorkflowError
  | activity (e : ActError) : WorkflowError
deriving DecidableEq

/-- From `workflows.ts` `messageClassificationWorkflow`: reject a missing
request or an empty-string message synchronously (JS falsiness of
`request.message`), otherwise delegate to the durable activity call; the
try/catch re-throws unchanged. -/
def messageClassificationWorkflow
    (act : MessageClassificationRequest → Except ActError MessageClassificationResult) :
    Option MessageClassificationRequest → Except WorkflowError MessageClassificationResult
  | none => .error (.invalidInput "Invalid request: message is required")
  | some request =>
    if request.message == "" then .error (.invalidInput "Invalid request: message is required")
    else (act request).mapError .activity

/-- Collect `Promise.all` fulfilment values in slot order: `.ok` with the
ordered list when every promise fulfils, otherwise the leftmost
rejection. -/
def collectOk : List (Except E A) → Except E (List A)
  | [] => .ok []
  | .error e :: _ => .error e
  | .ok a :: rest =>
    match collectOk rest with
    | .error e => .error e
    | .ok as => .ok (a :: as)

/-- JS `Promise.all` (an ECMAScript builtin): fulfils with the values in
slot order when every promise fulfils, regardless of completion order;
rejects with the reason of the first promise to reject in completion
order.  `sched` is the real-time completion order of the slots, kept
abstract so ordering claims hold for every completion order. -/
def promiseAll (outs : List (Except E A)) (sched : List Nat) : Except E (List A) :=
  match sched.findSome? (fun i =>
    match outs[i]? with
    | some (Except.error e) => some e
    | _ => none) with
  | some e => .error e
  | none => collectOk outs

/-- From `workflows.ts` `batchMessageClassificationWorkflow`: reject an
empty request list synchronously, otherwise classify every request
through the durable activity call, fanned out under `Promise.all`; the
try/catch re-throws unchanged. -/
def batchMessageClassificationWorkflow
    (cls : MessageClassificationRequest → Except ActError MessageClassificationResult)
    (sched : List Nat) (requests : List MessageClassificationRequest) :
    Except WorkflowError (List MessageClassificationResult) :=
  if requests.isEmpty then
    .error (.invalidInput "Invalid request: at least one message is required")
  else
    (promiseAll (requests.map cls) sched).mapError .activity

/-! Concrete environments, oracles and requests used to evaluate the
development on closed inputs. -/

/-- An environment with only LM Studio configured and no provider
selected. -/
def envOnlyLmstudio : Env := { LMSTUDIO_BASE_URL := some "http://localhost:1234/v1" }

/-- An environment with only OpenAI configured and the default provider
selection. -/
def envOpenai : Env := { OPENAI_API_KEY := some "sk-test" }

/-- An environment with only OpenAI configured but LM Studio explicitly
selected. -/
def envOpenaiSelLmstudio : Env := { OPENAI_API_KEY := some "sk-test", LLM_PROVIDER := some "lmstudio" }

/-- An environment with only OpenAI configured but an unknown provider
name explicitly selected. -/
def envOpenaiSelFoo : Env := { OPENAI_API_KEY := some "sk-test", LLM_PROVIDER := some "foo" }

/-- An LM Studio environment with LM Studio selected. -/
def envLmstudio : Env :=
  { LMSTUDIO_BASE_URL := some "http://localhost:1234/v1", LLM_PROVIDER := some "lmstudio" }

/-- A benign request. -/
def reqHi : MessageClassificationRequest := { message := "hi" }

/-- A second benign request, marked so a test double can fail it. -/
def reqM2 : MessageClassificationRequest := { message := "m2" }

/-- A whitespace-only, non-empty request message. -/
def reqWs : MessageClassificationRequest := { message := "  \t " }

/-- A single-space request message. -/
def reqSp : MessageClassificationRequest := { message := " " }

/-- Schema-valid classification data used by the test doubles. -/
def dataOk : ClassificationData :=
  { isOffensive := false, confidence := 1, reasoning := "ok" }

/-- Oracles for the structured-output path: `generateObject` produces a
schema-valid object. -/
def oraclesObj : Oracles :=
  { textResp := .error "unused"
    parseJson := fun _ => .error "unused"
    objectResp := .ok (.obj [("isOffensive", .bool true), ("confidence", .num 1),
                             ("reasoning", .str "bad")]) }

/-- The embedded JSON object of the free-text fixture. -/
def fixtureMid : List Char :=
  "\x22isOffensive\x22:false,\x22confidence\x22:1,\x22reasoning\x22:\x22ok\x22".data

/-- Oracles for the free-text path: prose around exactly one JSON
object, and a `JSON.parse` double that parses exactly that object. -/
def oraclesText : Oracles :=
  { textResp :=
      .ok "Sure. \x7b\x22isOffensive\x22:false,\x22confidence\x22:1,\x22reasoning\x22:\x22ok\x22\x7d done"
    parseJson := fun s =>
      if s = "\x7b\x22isOffensive\x22:false,\x22confidence\x22:1,\x22reasoning\x22:\x22ok\x22\x7d" then
        .ok (.obj [("isOffensive", .bool false), ("confidence", .num 1), ("reasoning", .str "ok")])
      else .error "SyntaxError: Unexpected token"
    objectResp := .error "unused" }

/-- Oracles whose free-text response contains no JSON object at all. -/
def oraclesNoJson : Oracles :=
  { textResp := .ok "I cannot answer that."
    parseJson := fun _ => .error "SyntaxError: Unexpected token"
    objectResp := .error "unused" }

/-- A free-text response that contains exactly one JSON object but whose
leading prose itself contains a brace-delimited word. -/
def strayText : String :=
  "Use \x7bcurly\x7d syntax. \x7b\x22isOffensive\x22:false,\x22confidence\x22:1,\x22reasoning\x22:\x22ok\x22\x7d"

/-- The one JSON object embedded in `strayText`. -/
def strayObjString : String :=
  "\x7b\x22isOffensive\x22:false,\x22confidence\x22:1,\x22reasoning\x22:\x22ok\x22\x7d"

/-- The span the greedy regex actually grabs from `strayText`: from the
first opening brace (in the prose) to the last closing brace. -/
def straySpan : String :=
  "\x7bcurly\x7d syntax. \x7b\x22isOffensive\x22:false,\x22confidence\x22:1,\x22reasoning\x22:\x22ok\x22\x7d"

/-- The parsed form of `strayObjString`. -/
def strayObjVal : Jsonv :=
  .obj [("isOffensive", .bool false), ("confidence", .num 1), ("reasoning", .str "ok")]

/-- Oracles for `strayText`: a `JSON.parse` double that parses the
embedded object and rejects anything else (the grabbed span, which
starts with an unquoted word after its opening brace, is not valid
JSON). -/
def oraclesStray : Oracles :=
  { textResp := .ok strayText
    parseJson := fun s =>
      if s = strayObjString then .ok strayObjVal
      else .error "SyntaxError: Unexpected token c"
    objectResp := .error "unused" }

/-- A classification test double that succeeds on every request. -/
def clsOk : MessageClassificationRequest → Except ActError MessageClassificationResult :=
  fun r => .ok (buildResult r dataOk "openai" "gpt-4o-mini" 0)

/-- A classification test double that fails exactly on `reqM2`. -/
def clsBad : MessageClassificationRequest → Except ActError MessageClassificationResult :=
  fun r =>
    if r.message == "m2" then .error (.classification "boom" r)
    else .ok (buildResult r dataOk "openai" "gpt-4o-mini" 0)

/-- An attempt-indexed model double: attempts 1 and 2 fail transiently,
attempt 3 succeeds. -/
def runFlaky : Nat → Except String Nat :=
  fun k => if k < 3 then .error "transient" else .ok 7

/-- An attempt-indexed model double that always fails. -/
def runDown : Nat → Except String Nat :=
  fun _ => .error "backend down"

/-! ## Claim C1 -/

/-- Claim C1, counterexample: with only LM Studio available and
`LLM_PROVIDER` unset, `validateConfiguration` reports a valid
configuration with an empty error list, yet classification uses the
defaulted provider `openai`, which is not available, so the activity
fails to resolve the model.  The claim requires a non-empty error list
in every such environment. -/
theorem validateConfiguration_unset_default_counterexample :
    (validateConfiguration envOnlyLmstudio).isValid = true ∧
    (validateConfiguration envOnlyLmstudio).errors = [] ∧
    envOr envOnlyLmstudio.LLM_PROVIDER "openai" = "openai" ∧
    (getAvailableProviders envOnlyLmstudio).contains "openai" = false ∧
    getModel envOnlyLmstudio =
      .error { message := "Failed to get model gpt-4o-mini from provider openai",
               provider := "openai" } ∧
    (classifyMessage envOnlyLmstudio oraclesObj 0 reqHi).result =
      .error (.provider { message := "Failed to get model gpt-4o-mini from provider openai",
                          provider := "openai" }) :=
  ⟨rfl, rfl, rfl, rfl, rfl, rfl⟩

/-- Claim C1, amended: `validateConfiguration` returns `isValid = false`
with a non-empty error list whenever `LLM_PROVIDER` is explicitly set to
a non-empty value that is not among the available providers; the unset
(or empty) case defaults to `openai` at classification time without any
validation check. -/
theorem validateConfiguration_selected_unavailable (env : Env) (p : String)
    (hp : env.LLM_PROVIDER = some p) (hne : p.isEmpty = false)
    (hna : (getAvailableProviders env).contains p = false) :
    (validateConfiguration env).isValid = false ∧
    (validateConfiguration env).errors ≠ [] := by
  have herrs : configErrors env ≠ [] := by
    simp only [configErrors, hp, hne, hna]
    simp
  constructor
  · simp [validateConfiguration, List.isEmpty_iff, herrs]
  · simpa [validateConfiguration] using herrs

/-- Claim C1, witness: the amended theorem applied to an environment
where only OpenAI is available but LM Studio is selected. -/
theorem validateConfiguration_selected_unavailable_witness :
    (validateConfiguration envOpenaiSelLmstudio).isValid = false ∧
    (validateConfiguration envOpenaiSelLmstudio).errors ≠ [] :=
  validateConfiguration_selected_unavailable envOpenaiSelLmstudio "lmstudio" rfl rfl rfl

/-! ## Claim C2 -/

/-- Shared helper: an empty or whitespace-only message is rejected by
the activity before the model handle is resolved and before any
generation call. -/
theorem classify_ws_outcome (env : Env) (o : Oracles) (now : Nat)
    (req : MessageClassificationRequest) (h : (jsTrim req.message).length = 0) :
    classifyMessage env o now req =
      { result := .error (.classification "Message cannot be empty" req)
        getModelCalls := 0, textCalls := 0, objectCalls := 0 } := by
  unfold classifyMessage
  simp [h]

/-- Claim C2: for every request whose message is empty or whitespace-only
(the JS trim of the message is empty), the activity fails with
`ClassificationError` and performs zero generation calls on either path;
the model handle is never resolved. -/
theorem classify_whitespace_no_model_calls (env : Env) (o : Oracles) (now : Nat)
    (req : MessageClassificationRequest) (h : (jsTrim req.message).length = 0) :
    classifyMessage env o now req =
      { result := .error (.classification "Message cannot be empty" req)
        getModelCalls := 0, textCalls := 0, objectCalls := 0 } :=
  classify_ws_outcome env o now req h

/-- Claim C2, witness: the theorem applied to a whitespace-only message
under a fully configured OpenAI environment. -/
theorem classify_whitespace_no_model_calls_witness :
    (jsTrim reqWs.message).length = 0 ∧
    classifyMessage envOpenai oraclesObj 0 reqWs =
      { result := .error (.classification "Message cannot be empty" reqWs)
        getModelCalls := 0, textCalls := 0, objectCalls := 0 } :=
  ⟨rfl, classify_whitespace_no_model_calls envOpenai oraclesObj 0 reqWs rfl⟩

/-! ## Claim C8 -/

/-- Shared helper: when every attempt fails with the same error, the
retry loop surfaces that error. -/
theorem retryExec_const_error {E A : Type} (p : RetryPolicyCfg) (run : Nat → Except E A)
    (e : E) (h : ∀ k, run k = .error e) :
    ∀ fuel k, (retryExec p run k fuel).1 = .error e := by
  intro fuel
  induction fuel with
  | zero => intro k; rw [retryExec, h k]
  | succ f ih => intro k; rw [retryExec, h k]; simpa using ih (k + 1)

/-- Shared helper: under the declared options, a durable execution is the
retry loop started at attempt 1 with 2 retries of fuel. -/
theorem durableExecute_decl (run : Nat → Except E A) :
    durableExecute activityProxyOptions.retry run =
      retryExec activityProxyOptions.retry run 1 2 := rfl

/-- Claim C8: under the retry options declared in `workflows.ts`, a
durable activity execution performs at most 3 attempts; if all three
attempts fail, the failure of attempt 3 is surfaced unmodified and the
waits between attempts follow the declared backoff (1 s then 2 s); a
transient failure on attempts 1 and 2 followed by success on attempt 3
yields that success; and the backoff interval after attempt `k + 1` is
the initial 1 s interval doubled `k` times, capped at 30 s. -/
theorem retry_policy_semantics {E A : Type} (run : Nat → Except E A) :
    (durableExecute activityProxyOptions.retry run).2.1 ≤ 3 ∧
    (∀ e1 e2 e3, run 1 = .error e1 → run 2 = .error e2 → run 3 = .error e3 →
      (durableExecute activityProxyOptions.retry run).1 = .error e3 ∧
      (durableExecute activityProxyOptions.retry run).2.2 = [1000, 2000]) ∧
    (∀ e1 e2 a, run 1 = .error e1 → run 2 = .error e2 → run 3 = .ok a →
      (durableExecute activityProxyOptions.retry run).1 = .ok a) ∧
    (∀ k, backoffInterval activityProxyOptions.retry (k + 1) = min 30000 (1000 * 2 ^ k)) := by
  refine ⟨?_, ?_, ?_, ?_⟩
  · rw [durableExecute_decl]
    cases h1 : run 1 with
    | ok a => rw [retryExec, h1]; simp
    | error e1 =>
      rw [retryExec, h1, show (2 : Nat) = 1 + 1 from rfl]
      simp only []
      cases h2 : run 2 with
      | ok a => rw [retryExec, h2]; simp
      | error e2 =>
        rw [retryExec, h2, show (1 : Nat) = 0 + 1 from rfl]
        simp only []
        cases h3 : run 3 with
        | ok a => rw [retryExec, h3]
        | error e3 => rw [retryExec, h3]
  · intro e1 e2 e3 h1 h2 h3
    rw [durableExecute_decl, retryExec, h1, show (2 : Nat) = 1 + 1 from rfl]
    simp only []
    rw [retryExec, h2, show (1 : Nat) = 0 + 1 from rfl]
    simp only []
    rw [retryExec, h3]
    simp [backoffInterval, activityProxyOptions]
  · intro e1 e2 a h1 h2 h3
    rw [durableExecute_decl, retryExec, h1, show (2 : Nat) = 1 + 1 from rfl]
    simp only []
    rw [retryExec, h2, show (1 : Nat) = 0 + 1 from rfl]
    simp only []
    rw [retryExec, h3]
  · intro k
    simp [backoffInterval, activityProxyOptions]

/-- Claim C8, witness: the theorem applied to a double that fails
attempts 1 and 2 and succeeds on attempt 3, and to a double that always
fails. -/
theorem retry_policy_semantics_witness :
    (durableExecute activityProxyOptions.retry runFlaky).2.1 ≤ 3 ∧
    (durableExecute activityProxyOptions.retry runFlaky).1 = .ok 7 ∧
    (durableExecute activityProxyOptions.retry runDown).1 = .error "backend down" ∧
    (durableExecute activityProxyOptions.retry runDown).2.2 = [1000, 2000] :=
  ⟨(retry_policy_semantics runFlaky).1,
   (retry_policy_semantics runFlaky).2.2.1 "transient" "transient" 7 rfl rfl rfl,
   ((retry_policy_semantics runDown).2.1 "backend down" "backend down" "backend down"
      rfl rfl rfl).1,
   ((retry_policy_semantics runDown).2.1 "backend down" "backend down" "backend down"
      rfl rfl rfl).2⟩

/-! ## Claim C9 -/

/-- Shared helper: the durable invocation of the activity on a
whitespace-only message fails with the activity-level
`ClassificationError` on every attempt, hence overall. -/
theorem durableClassify_ws (env : Env) (oracleAt : Nat → Oracles) (now : Nat)
    (req : MessageClassificationRequest) (h : (jsTrim req.message).length = 0) :
    durableClassify env oracleAt now req =
      .error (.classification "Message cannot be empty" req) := by
  unfold durableClassify durableExecute
  apply retryExec_const_error
  intro k
  rw [classify_ws_outcome env (oracleAt k) now req h]

/-- Claim C9: a non-empty, whitespace-only message passes the workflow's
synchronous validation (which only rejects a missing request or an
empty-string message) and is dispatched to the durable activity; the
resulting failure is the activity's `ClassificationError`, tagged as an
activity failure, not the workflow's synchronous validation error. -/
theorem workflow_dispatches_whitespace_to_activity (env : Env) (oracleAt : Nat → Oracles)
    (now : Nat) (req : MessageClassificationRequest)
    (hne : (req.message == "") = false) (hws : (jsTrim req.message).length = 0) :
    messageClassificationWorkflow (durableClassify env oracleAt now) (some req) =
      .error (.activity (.classification "Message cannot be empty" req)) := by
  unfold messageClassificationWorkflow
  simp [hne, durableClassify_ws env oracleAt now req hws, Except.mapError]

/-- Claim C9, witness: the theorem applied to the single-space message
under a fully configured OpenAI environment. -/
theorem workflow_dispatches_whitespace_to_activity_witness :
    (reqSp.message == "") = false ∧
    messageClassificationWorkflow (durableClassify envOpenai (fun _ => oraclesObj) 0) (some reqSp) =
      .error (.activity (.classification "Message cannot be empty" reqSp)) :=
  ⟨rfl, workflow_dispatches_whitespace_to_activity envOpenai (fun _ => oraclesObj) 0 reqSp rfl rfl⟩

/-! ## Claims C5 and C6 -/

/-- Shared helper: `collectOk` fulfils exactly when every slot fulfilled,
with the values in slot order. -/
theorem collectOk_eq_ok {E A : Type} (outs : List (Except E A)) (vs : List A)
    (h : collectOk outs = .ok vs) : outs = vs.map Except.ok := by
  induction outs generalizing vs with
  | nil =>
    simp only [collectOk] at h
    cases h
    simp
  | cons o rest ih =>
    cases o with
    | error e => simp [collectOk] at h
    | ok a =>
      simp only [collectOk] at h
      cases hrest : collectOk rest with
      | error e => rw [hrest] at h; cases h
      | ok as =>
        rw [hrest] at h
        cases h
        simp [ih as hrest]

/-- Shared helper: a fulfilled batch call pins every slot — the result
list has the length of the request list and its `i`-th element is the
successful classification of the `i`-th request, for every completion
order. -/
theorem batch_ok_pointwise
    (cls : MessageClassificationRequest → Except ActError MessageClassificationResult)
    (sched : List Nat) (requests : List MessageClassificationRequest)
    (results : List MessageClassificationResult)
    (h : batchMessageClassificationWorkflow cls sched requests = .ok results) :
    results.length = requests.length ∧
    ∀ i (hi : i < requests.length) (hi' : i < results.length),
      cls requests[i] = .ok results[i] := by
  unfold batchMessageClassificationWorkflow at h
  by_cases he : requests.isEmpty
  · simp [he] at h
  · simp only [he, if_neg, Bool.false_eq_true] at h
    cases hp : promiseAll (requests.map cls) sched with
    | error e => rw [hp] at h; simp [Except.mapError] at h
    | ok vs =>
      rw [hp] at h
      simp only [Except.mapError] at h
      cases h
      unfold promiseAll at hp
      split at hp
      · cases hp
      · have hmap : requests.map cls = results.map Except.ok := collectOk_eq_ok _ _ hp
        have hlen : results.length = requests.length := by
          have := congrArg List.length hmap
          simpa using this.symm
        refine ⟨hlen, ?_⟩
        intro i hi hi'
        have hq := congrArg (fun l => l[i]?) hmap
        simp only [List.getElem?_map] at hq
        rw [List.getElem?_eq_getElem hi, List.getElem?_eq_getElem hi'] at hq
        simpa using hq

/-- Claim C5: a fulfilled `classifyBatch` returns exactly one result per
request, and the `i`-th result is the successful classification of the
`i`-th request, for every completion order `sched` of the underlying
calls. -/
theorem batch_preserves_order
    (cls : MessageClassificationRequest → Except ActError MessageClassificationResult)
    (sched : List Nat) (requests : List MessageClassificationRequest)
    (results : List MessageClassificationResult)
    (h : batchMessageClassificationWorkflow cls sched requests = .ok results) :
    results.length = requests.length ∧
    ∀ i (hi : i < requests.length) (hi' : i < results.length),
      cls requests[i] = .ok results[i] :=
  batch_ok_pointwise cls sched requests results h

/-- Claim C5, witness: a two-request batch whose underlying calls
complete in reverse order still returns slot-ordered results. -/
theorem batch_preserves_order_witness :
    (buildResult reqM2 dataOk "openai" "gpt-4o-mini" 0 ::
        [buildResult reqHi dataOk "openai" "gpt-4o-mini" 0]).length = [reqM2, reqHi].length ∧
    clsOk ([reqM2, reqHi][1]) =
      .ok ((buildResult reqM2 dataOk "openai" "gpt-4o-mini" 0 ::
        [buildResult reqHi dataOk "openai" "gpt-4o-mini" 0])[1]) := by
  have h := batch_preserves_order clsOk [1, 0] [reqM2, reqHi]
    [buildResult reqM2 dataOk "openai" "gpt-4o-mini" 0,
     buildResult reqHi dataOk "openai" "gpt-4o-mini" 0] rfl
  exact ⟨h.1, h.2 1 (by decide) (by decide)⟩

/-- Claim C6: `classifyBatch` rejects the empty request list with the
synchronous validation error; and whenever any single classification
fails, the batch call does not fulfil with any result list, for every
completion order. -/
theorem batch_rejects_empty_and_fails_atomically
    (cls : MessageClassificationRequest → Except ActError MessageClassificationResult)
    (sched : List Nat) (requests : List MessageClassificationRequest) :
    (requests = [] →
      batchMessageClassificationWorkflow cls sched requests =
        .error (.invalidInput "Invalid request: at least one message is required")) ∧
    (∀ i (hi : i < requests.length) (e : ActError), cls requests[i] = .error e →
      ∀ results, batchMessageClassificationWorkflow cls sched requests ≠ .ok results) := by
  constructor
  · intro h
    subst h
    rfl
  · intro i hi e he results hok
    obtain ⟨hlen, hpt⟩ := batch_ok_pointwise cls sched requests results hok
    have hi' : i < results.length := by omega
    have := hpt i hi hi'
    rw [he] at this
    cases this

/-- Claim C6, witness: the empty batch is rejected, and a batch whose
second request fails classification does not fulfil. -/
theorem batch_rejects_empty_and_fails_atomically_witness :
    batchMessageClassificationWorkflow clsOk [0] [] =
      .error (.invalidInput "Invalid request: at least one message is required") ∧
    batchMessageClassificationWorkflow clsBad [0, 1] [reqHi, reqM2] ≠
      .ok [buildResult reqHi dataOk "openai" "gpt-4o-mini" 0,
           buildResult reqM2 dataOk "openai" "gpt-4o-mini" 0] :=
  ⟨(batch_rejects_empty_and_fails_atomically clsOk [0] []).1 rfl,
   (batch_rejects_empty_and_fails_atomically clsBad [0, 1] [reqHi, reqM2]).2
     1 (by decide) (.classification "boom" reqM2) rfl
     [buildResult reqHi dataOk "openai" "gpt-4o-mini" 0,
      buildResult reqM2 dataOk "openai" "gpt-4o-mini" 0]⟩

/-! ## Claim C7 -/

/-- Shared helper: data that passes the zod schema has its confidence
within the declared bounds. -/
theorem schemaParse_confidence_bounds (v : Jsonv) (d : ClassificationData)
    (h : schemaParse v = .ok d) : 0 ≤ d.confidence ∧ d.confidence ≤ 1 := by
  unfold schemaParse at h
  repeat' split at h
  all_goals first
    | (cases h; exact ⟨not_lt.mp (by assumption), not_lt.mp (by assumption)⟩)
    | cases h

/-- Shared helper: the free-text path only yields schema-validated
data. -/
theorem lmstudioPath_bounds (o : Oracles) (req : MessageClassificationRequest)
    (d : ClassificationData) (h : lmstudioPath o req = .ok d) :
    0 ≤ d.confidence ∧ d.confidence ≤ 1 := by
  unfold lmstudioPath at h
  repeat' split at h
  all_goals cases h
  exact schemaParse_confidence_bounds _ _ (by assumption)

/-- Shared helper: the structured-output path only yields
schema-validated data. -/
theorem openaiPath_bounds (o : Oracles) (req : MessageClassificationRequest)
    (d : ClassificationData) (h : openaiPath o req = .ok d) :
    0 ≤ d.confidence ∧ d.confidence ≤ 1 := by
  unfold openaiPath at h
  repeat' split at h
  all_goals cases h
  exact schemaParse_confidence_bounds _ _ (by assumption)

/-- Claim C7: whenever the activity succeeds, the result carries the
original request message verbatim, and its confidence, when present,
lies in the interval from 0 to 1. -/
theorem classify_result_invariants (env : Env) (o : Oracles) (now : Nat)
    (req : MessageClassificationRequest) (res : MessageClassificationResult)
    (h : (classifyMessage env o now req).result = .ok res) :
    res.message = req.message ∧ ∀ q, res.confidence = some q → 0 ≤ q ∧ q ≤ 1 := by
  unfold classifyMessage at h
  cases hg : (req.message == "" || (jsTrim req.message).length == 0) with
  | true => rw [hg] at h; simp at h
  | false =>
    rw [hg] at h
    simp only [Bool.false_eq_true, if_false] at h
    cases hm : getModel env with
    | error e => rw [hm] at h; simp at h
    | ok s =>
      rw [hm] at h
      simp only [] at h
      cases hbr : (envOr env.LLM_PROVIDER "openai" == "lmstudio") with
      | true =>
        rw [hbr] at h
        simp only [if_true] at h
        cases hpath : lmstudioPath o req with
        | error e => rw [hpath] at h; simp at h
        | ok d =>
          rw [hpath] at h
          simp only [Except.ok.injEq] at h
          subst h
          refine ⟨rfl, ?_⟩
          intro q hq
          simp only [buildResult, Option.some.injEq] at hq
          subst hq
          exact lmstudioPath_bounds o req d hpath
      | false =>
        rw [hbr] at h
        simp only [Bool.false_eq_true, if_false] at h
        cases hpath : openaiPath o req with
        | error e => rw [hpath] at h; simp at h
        | ok d =>
          rw [hpath] at h
          simp only [Except.ok.injEq] at h
          subst h
          refine ⟨rfl, ?_⟩
          intro q hq
          simp only [buildResult, Option.some.injEq] at hq
          subst hq
          exact openaiPath_bounds o req d hpath

/-- Claim C7, witness: the theorem applied to a successful
structured-output classification. -/
theorem classify_result_invariants_witness :
    (buildResult reqHi { isOffensive := true, confidence := 1, reasoning := "bad" }
        "openai" "gpt-4o-mini" 5).message = reqHi.message ∧
    (0 : ℚ) ≤ 1 ∧ (1 : ℚ) ≤ 1 := by
  have h := classify_result_invariants envOpenai oraclesObj 5 reqHi
    (buildResult reqHi { isOffensive := true, confidence := 1, reasoning := "bad" }
      "openai" "gpt-4o-mini" 5) rfl
  exact ⟨h.1, h.2 1 rfl⟩

/-! ## Claim C3 -/

/-- Shared helper: the prefix up to the last closing brace of an
embedded object followed by close-brace-free trailing prose is the
object body itself. -/
theorem takeToLastClose_embed (mid post : List Char) (hpost : ∀ c ∈ post, c ≠ rbrace) :
    takeToLastClose ((mid ++ [rbrace]) ++ post) = mid ++ [rbrace] := by
  unfold takeToLastClose
  rw [List.reverse_append, List.reverse_append]
  rw [List.dropWhile_append_of_pos]
  · simp
  · intro a ha
    rw [List.mem_reverse] at ha
    exact decide_eq_true (hpost a ha)

/-- Shared helper: on a response consisting of exactly one
brace-delimited object with open-brace-free leading prose and
close-brace-free trailing prose, the greedy match returns exactly the
embedded object. -/
theorem jsonMatch_embed (pre mid post : List Char)
    (hpre : ∀ c ∈ pre, c ≠ lbrace) (hpost : ∀ c ∈ post, c ≠ rbrace) :
    jsonMatch ((pre ++ (lbrace :: (mid ++ [rbrace]))) ++ post) =
      some (lbrace :: (mid ++ [rbrace])) := by
  induction pre with
  | nil =>
    simp only [List.nil_append, List.cons_append]
    unfold jsonMatch
    rw [if_pos rfl]
    rw [if_pos]
    · rw [takeToLastClose_embed mid post hpost]
    · have hm : rbrace ∈ (mid ++ [rbrace]) ++ post := by simp
      exact List.elem_eq_true_of_mem hm
  | cons c pre ih =>
    have hc : c ≠ lbrace := hpre c (by simp)
    simp only [List.cons_append]
    unfold jsonMatch
    rw [if_neg hc]
    exact ih (fun a ha => hpre a (by simp [ha]))

/-- Shared helper: with LM Studio selected and configured, the model
handle resolves to the LM Studio id. -/
theorem getModel_lmstudio (env : Env) (hprov : env.LLM_PROVIDER = some "lmstudio")
    (hurl : truthy env.LMSTUDIO_BASE_URL = true) :
    getModel env = .ok ("lmstudio" ++ ":" ++ envOr env.DEFAULT_MODEL "gpt-4o-mini") := by
  have h1 : envOr (some "lmstudio") "openai" = "lmstudio" := rfl
  have h2 : String.mk (("lmstudio" : String).data.takeWhile (fun c => c ≠ ':')) = "lmstudio" := by
    decide
  simp only [getModel, hprov, h1, h2]
  rw [if_pos]
  cases hoa : truthy env.OPENAI_API_KEY <;> simp [registryProviders, hurl, hoa]

/-- Shared helper: with LM Studio selected and configured and a
non-empty message, the activity outcome is the free-text extraction
pipeline, normalized through the result literal, with one `generateText`
call and no `generateObject` call. -/
theorem classify_lmstudio_result (env : Env) (o : Oracles) (now : Nat)
    (req : MessageClassificationRequest)
    (hprov : env.LLM_PROVIDER = some "lmstudio") (hurl : truthy env.LMSTUDIO_BASE_URL = true)
    (hmsg : (req.message == "" || (jsTrim req.message).length == 0) = false) :
    classifyMessage env o now req =
      { result := (lmstudioPath o req).map
          (fun d => buildResult req d "lmstudio" (envOr env.DEFAULT_MODEL "gpt-4o-mini") now)
        getModelCalls := 1, textCalls := 1, objectCalls := 0 } := by
  have h1 : envOr (some "lmstudio") "openai" = "lmstudio" := rfl
  simp only [classifyMessage, hmsg, Bool.false_eq_true, if_false,
    getModel_lmstudio env hprov hurl, hprov, h1]
  simp only [beq_self_eq_true, if_true]
  cases hp : lmstudioPath o req <;> simp [hp, Except.map]

/-- Claim C3, counterexample: the response `strayText` contains exactly
one JSON object plus surrounding prose — the embedded object parses and
schema-validates — yet because the prose contains a stray brace-wrapped
word before the object, the greedy first-open-to-last-close match grabs
a longer, non-JSON span, `JSON.parse` fails on it, and the activity
raises `ClassificationError` instead of yielding a result matching the
embedded object.  This refutes the claim as universally stated. -/
theorem lmstudio_extraction_greedy_counterexample :
    oraclesStray.parseJson strayObjString = .ok strayObjVal ∧
    schemaParse strayObjVal = .ok { isOffensive := false, confidence := 1, reasoning := "ok" } ∧
    (jsonMatch strayText.data).map String.mk = some straySpan ∧
    straySpan ≠ strayObjString ∧
    (classifyMessage envLmstudio oraclesStray 0 reqHi).result =
      .error (.classification
        (parseFailMsg "SyntaxError: Unexpected token c" strayText) reqHi) :=
  ⟨rfl, rfl, rfl, by decide, rfl⟩

/-- Claim C3, amended: on the free-text path, for a raw response made of
exactly one brace-delimited JSON object surrounded by prose with no
opening brace before the object and no closing brace after it,
extraction locates exactly the embedded object, parses and
schema-validates it, and the activity succeeds with a result matching
the embedded object (original message, validated fields,
environment-derived provider and model).  When the prose itself
contains braces the greedy match can grab a non-JSON span and the
activity fails instead (see the counterexample). -/
theorem lmstudio_extraction_success (env : Env) (o : Oracles) (now : Nat)
    (req : MessageClassificationRequest) (pre mid post : List Char) (v : Jsonv)
    (data : ClassificationData)
    (hprov : env.LLM_PROVIDER = some "lmstudio")
    (hurl : truthy env.LMSTUDIO_BASE_URL = true)
    (hmsg : (req.message == "" || (jsTrim req.message).length == 0) = false)
    (htext : o.textResp = .ok (String.mk ((pre ++ (lbrace :: (mid ++ [rbrace]))) ++ post)))
    (hpre : ∀ c ∈ pre, c ≠ lbrace) (hpost : ∀ c ∈ post, c ≠ rbrace)
    (hparse : o.parseJson (String.mk (lbrace :: (mid ++ [rbrace]))) = .ok v)
    (hschema : schemaParse v = .ok data) :
    (classifyMessage env o now req).result =
      .ok { message := req.message
            isOffensive := data.isOffensive
            confidence := some data.confidence
            reasoning := some data.reasoning
            provider := "lmstudio"
            model := envOr env.DEFAULT_MODEL "gpt-4o-mini"
            timestamp := now } := by
  have hpath : lmstudioPath o req = .ok data := by
    unfold lmstudioPath
    rw [htext]
    simp only []
    rw [jsonMatch_embed pre mid post hpre hpost]
    simp only []
    rw [hparse]
    simp only []
    rw [hschema]
  rw [classify_lmstudio_result env o now req hprov hurl hmsg]
  simp [hpath, Except.map, buildResult]

/-- Claim C3, witness: the theorem applied to a concrete prose-wrapped
JSON object under a configured LM Studio environment. -/
theorem lmstudio_extraction_success_witness :
    (classifyMessage envLmstudio oraclesText 5 reqHi).result =
      .ok { message := reqHi.message
            isOffensive := false
            confidence := some 1
            reasoning := some "ok"
            provider := "lmstudio"
            model := envOr envLmstudio.DEFAULT_MODEL "gpt-4o-mini"
            timestamp := 5 } :=
  lmstudio_extraction_success envLmstudio oraclesText 5 reqHi
    "Sure. ".data fixtureMid " done".data
    (.obj [("isOffensive", .bool false), ("confidence", .num 1), ("reasoning", .str "ok")])
    { isOffensive := false, confidence := 1, reasoning := "ok" }
    rfl rfl rfl rfl (by decide) (by decide) rfl rfl

/-! ## Claim C4 -/

/-- Shared helper: string concatenation concatenates the underlying
character lists. -/
theorem string_data_append (a b : String) : (a ++ b).data = a.data ++ b.data := rfl

/-- Shared helper: the parse-failure message embeds both the failure
description and the raw response text. -/
theorem parseFailMsg_contains (failure text : String) :
    List.IsInfix text.data (parseFailMsg failure text).data ∧
    List.IsInfix failure.data (parseFailMsg failure text).data := by
  constructor
  · refine ⟨("Failed to parse LM Studio response: " ++ failure ++ ". Response was: ").data, [], ?_⟩
    simp [parseFailMsg, string_data_append]
  · refine ⟨("Failed to parse LM Studio response: " : String).data,
      (". Response was: " ++ text).data, ?_⟩
    simp [parseFailMsg, string_data_append]

/-- Claim C4: on the free-text path, when no JSON substring is found, or
`JSON.parse` fails, or schema validation fails, the activity fails with
a `ClassificationError` whose message contains the raw response text and
(for parse and validation failures) the failure description, and it
never falls back to a successful default classification. -/
theorem lmstudio_extraction_failure_diagnostics (env : Env) (o : Oracles) (now : Nat)
    (req : MessageClassificationRequest) (text : String)
    (hprov : env.LLM_PROVIDER = some "lmstudio")
    (hurl : truthy env.LMSTUDIO_BASE_URL = true)
    (hmsg : (req.message == "" || (jsTrim req.message).length == 0) = false)
    (htext : o.textResp = .ok text) :
    (jsonMatch text.data = none →
      (classifyMessage env o now req).result =
        .error (.classification (parseFailMsg "No JSON found in response" text) req) ∧
      List.IsInfix text.data (parseFailMsg "No JSON found in response" text).data) ∧
    (∀ ms pe, jsonMatch text.data = some ms → o.parseJson (String.mk ms) = .error pe →
      (classifyMessage env o now req).result =
        .error (.classification (parseFailMsg pe text) req) ∧
      List.IsInfix text.data (parseFailMsg pe text).data ∧
      List.IsInfix pe.data (parseFailMsg pe text).data) ∧
    (∀ ms v ze, jsonMatch text.data = some ms → o.parseJson (String.mk ms) = .ok v →
        schemaParse v = .error ze →
      (classifyMessage env o now req).result =
        .error (.classification (parseFailMsg ze text) req) ∧
      List.IsInfix text.data (parseFailMsg ze text).data ∧
      List.IsInfix ze.data (parseFailMsg ze text).data) := by
  have hres := classify_lmstudio_result env o now req hprov hurl hmsg
  refine ⟨?_, ?_, ?_⟩
  · intro hnone
    refine ⟨?_, (parseFailMsg_contains "No JSON found in response" text).1⟩
    rw [hres]
    simp only []
    unfold lmstudioPath
    rw [htext]
    simp only []
    rw [hnone]
    rfl
  · intro ms pe hms hpe
    refine ⟨?_, (parseFailMsg_contains pe text).1, (parseFailMsg_contains pe text).2⟩
    rw [hres]
    simp only []
    unfold lmstudioPath
    rw [htext]
    simp only []
    rw [hms]
    simp only []
    rw [hpe]
    rfl
  · intro ms v ze hms hv hze
    refine ⟨?_, (parseFailMsg_contains ze text).1, (parseFailMsg_contains ze text).2⟩
    rw [hres]
    simp only []
    unfold lmstudioPath
    rw [htext]
    simp only []
    rw [hms]
    simp only []
    rw [hv]
    simp only []
    rw [hze]
    rfl

/-- Claim C4, witness: the theorem applied to a response that contains
no JSON object. -/
theorem lmstudio_extraction_failure_diagnostics_witness :
    (classifyMessage envLmstudio oraclesNoJson 0 reqHi).result =
      .error (.classification
        (parseFailMsg "No JSON found in response" "I cannot answer that.") reqHi) ∧
    List.IsInfix ("I cannot answer that." : String).data
      (parseFailMsg "No JSON found in response" "I cannot answer that.").data :=
  (lmstudio_extraction_failure_diagnostics envLmstudio oraclesNoJson 0 reqHi
    "I cannot answer that." rfl rfl rfl rfl).1 (by decide)

/-! ## Claim C10 -/

/-- Claim C10, counterexample: with `LLM_PROVIDER` set to an unregistered
provider name (`foo`) in an otherwise configured environment, the model
handle fails to resolve and the activity fails with `LLMProviderError`
before any generation call — the schema-constrained `generateObject`
path is not taken, contradicting the claim for unregistered provider
names. -/
theorem classify_unregistered_provider_counterexample :
    envOr envOpenaiSelFoo.LLM_PROVIDER "openai" = "foo" ∧
    (registryProviders envOpenaiSelFoo).contains "foo" = false ∧
    (reqHi.message == "" || (jsTrim reqHi.message).length == 0) = false ∧
    (classifyMessage envOpenaiSelFoo oraclesObj 0 reqHi).objectCalls = 0 ∧
    (classifyMessage envOpenaiSelFoo oraclesObj 0 reqHi).textCalls = 0 ∧
    (classifyMessage envOpenaiSelFoo oraclesObj 0 reqHi).result =
      .error (.provider { message := "Failed to get model gpt-4o-mini from provider foo",
                          provider := "foo" }) :=
  ⟨rfl, rfl, rfl, rfl, rfl, rfl⟩

/-- Claim C10, amended: for a non-empty message, the free-text
(`generateText`) strategy is never used unless the environment-derived
provider equals `lmstudio`, and the `generateObject` strategy is never
used when it does; when the model handle resolves, exactly one call of
the branch-selected strategy is issued; and a successful result is
stamped with the environment-derived provider and model names (defaults
`openai` and `gpt-4o-mini`), not with values reported by the backend. -/
theorem classify_branch_and_stamp (env : Env) (o : Oracles) (now : Nat)
    (req : MessageClassificationRequest)
    (hmsg : (req.message == "" || (jsTrim req.message).length == 0) = false) :
    (envOr env.LLM_PROVIDER "openai" ≠ "lmstudio" →
      (classifyMessage env o now req).textCalls = 0) ∧
    (envOr env.LLM_PROVIDER "openai" = "lmstudio" →
      (classifyMessage env o now req).objectCalls = 0) ∧
    (∀ s, envOr env.LLM_PROVIDER "openai" ≠ "lmstudio" → getModel env = .ok s →
      (classifyMessage env o now req).objectCalls = 1) ∧
    (∀ s, envOr env.LLM_PROVIDER "openai" = "lmstudio" → getModel env = .ok s →
      (classifyMessage env o now req).textCalls = 1) ∧
    (∀ res, (classifyMessage env o now req).result = .ok res →
      res.provider = envOr env.LLM_PROVIDER "openai" ∧
      res.model = envOr env.DEFAULT_MODEL "gpt-4o-mini") := by
  refine ⟨?_, ?_, ?_, ?_, ?_⟩
  · intro hne
    have hb : (envOr env.LLM_PROVIDER "openai" == "lmstudio") = false := by
      simp [hne]
    cases hm : getModel env with
    | error e => simp [classifyMessage, hmsg, hm]
    | ok s =>
      simp only [classifyMessage, hmsg, Bool.false_eq_true, if_false, hm, hb]
      cases hp : openaiPath o req <;> simp [hp]
  · intro heq
    have hb : (envOr env.LLM_PROVIDER "openai" == "lmstudio") = true := by
      simp [heq]
    cases hm : getModel env with
    | error e => simp [classifyMessage, hmsg, hm]
    | ok s =>
      simp only [classifyMessage, hmsg, Bool.false_eq_true, if_false, hm, hb]
      cases hp : lmstudioPath o req <;> simp [hp]
  · intro s hne hm
    have hb : (envOr env.LLM_PROVIDER "openai" == "lmstudio") = false := by
      simp [hne]
    simp only [classifyMessage, hmsg, Bool.false_eq_true, if_false, hm, hb]
    cases hp : openaiPath o req <;> simp [hp]
  · intro s heq hm
    have hb : (envOr env.LLM_PROVIDER "openai" == "lmstudio") = true := by
      simp [heq]
    simp only [classifyMessage, hmsg, Bool.false_eq_true, if_false, hm, hb]
    cases hp : lmstudioPath o req <;> simp [hp]
  · intro res hres
    cases hm : getModel env with
    | error e => simp [classifyMessage, hmsg, hm] at hres
    | ok s =>
      simp only [classifyMessage, hmsg, Bool.false_eq_true, if_false, hm] at hres
      cases hb : (envOr env.LLM_PROVIDER "openai" == "lmstudio") with
      | true =>
        rw [hb] at hres
        simp only [if_true] at hres
        cases hp : lmstudioPath o req with
        | error e => rw [hp] at hres; simp at hres
        | ok d =>
          rw [hp] at hres
          simp only [Except.ok.injEq] at hres
          subst hres
          exact ⟨rfl, rfl⟩
      | false =>
        rw [hb] at hres
        simp only [Bool.false_eq_true, if_false] at hres
        cases hp : openaiPath o req with
        | error e => rw [hp] at hres; simp at hres
        | ok d =>
          rw [hp] at hres
          simp only [Except.ok.injEq] at hres
          subst hres
          exact ⟨rfl, rfl⟩

/-- Claim C10, witness: the amended theorem applied to the default
OpenAI environment on the structured-output path. -/
theorem classify_branch_and_stamp_witness :
    (classifyMessage envOpenai oraclesObj 5 reqHi).textCalls = 0 ∧
    (classifyMessage envOpenai oraclesObj 5 reqHi).objectCalls = 1 ∧
    ((buildResult reqHi { isOffensive := true, confidence := 1, reasoning := "bad" }
        "openai" "gpt-4o-mini" 5).provider = envOr envOpenai.LLM_PROVIDER "openai" ∧
      (buildResult reqHi { isOffensive := true, confidence := 1, reasoning := "bad" }
        "openai" "gpt-4o-mini" 5).model = envOr envOpenai.DEFAULT_MODEL "gpt-4o-mini") :=
  ⟨(classify_branch_and_stamp envOpenai oraclesObj 5 reqHi rfl).1 (by decide),
   (classify_branch_and_stamp envOpenai oraclesObj 5 reqHi rfl).2.2.1
     ("openai" ++ ":" ++ "gpt-4o-mini") (by decide) rfl,
   (classify_branch_and_stamp envOpenai oraclesObj 5 reqHi rfl).2.2.2.2
     (buildResult reqHi { isOffensive := true, confidence := 1, reasoning := "bad" }
       "openai" "gpt-4o-mini" 5) rfl⟩
